import Mathlib

/-!
# Verification of the html-fuzzer browser-automation core

A shallow embedding, in Lean 4, of the resilient attach/navigate/observe
automaton of the `html-fuzzer` repository:

* `src/navigator/base.py` — driver read accessors (`Navigator`);
* `src/browser/comet/navigator.py` — `CometNavigator.navigate_to_url`, its
  `file://` fallback ladder, and the stream-completion detector
  `wait_for_response_streaming` / `_is_actively_streaming`;
* `src/browser_launcher/base.py` — `kill_existing_processes`,
  `launch_browser`, `wait_for_devtools`, `launch_and_attach`;
* `src/browser_launcher/comet_launcher.py` — `get_launch_args` and the
  chromedriver resolution chain `_get_chromedriver_path`;
* `src/conversion/base.py` — `ConversionResult` and `BaseConversion.execute`.

The Selenium driver, the host process table, the HTTP discovery endpoint and
the driver-installer libraries are external effects; each is modelled as an
explicit environment of `Except`-valued oracles (an exception in Python is an
`.error` here), and the Python code is translated statement by statement over
those oracles.  Repeated invocations of one external call are modelled as
returning the same value unless the call takes a state argument.

Python string primitives (`in`, `startswith`, `lower`, `replace`) are
re-implemented over `List Char` so that every definition is executable by the
kernel.
-/

/-! ## Python string primitives over `List Char` -/

/-- `chListPrefix pat s` decides whether `pat` is a prefix of `s`
(character lists). -/
def chListPrefix : List Char → List Char → Bool
  | [], _ => true
  | _ :: _, [] => false
  | a :: as, b :: bs => a == b && chListPrefix as bs

/-- `chListInfix pat s` decides whether `pat` occurs as a contiguous
substring of `s` — the semantics of Python's `pat in s`. -/
def chListInfix (pat : List Char) : List Char → Bool
  | [] => chListPrefix pat []
  | c :: cs => chListPrefix pat (c :: cs) || chListInfix pat cs

theorem chListPrefix_iff (pat s : List Char) : chListPrefix pat s = true ↔ pat <+: s := by
  induction pat generalizing s with
  | nil => simp [chListPrefix]
  | cons a as ih =>
    cases s with
    | nil => simp [chListPrefix]
    | cons b bs =>
      rw [List.cons_prefix_cons]
      simp only [chListPrefix, Bool.and_eq_true, beq_iff_eq, ih]

theorem chListInfix_iff (pat s : List Char) : chListInfix pat s = true ↔ pat <:+: s := by
  induction s with
  | nil => simp [chListInfix, chListPrefix_iff, List.infix_nil, List.prefix_nil]
  | cons c cs ih => simp [chListInfix, chListPrefix_iff, ih, List.infix_cons_iff]

/-- Python `needle in hay` on strings. -/
def pyIn (needle hay : String) : Bool := chListInfix needle.toList hay.toList

/-- Python `s.startswith(pre)`. -/
def pyStartsWith (s pre : String) : Bool := chListPrefix pre.toList s.toList

/-- Python `s.lower()` (ASCII case folding suffices for the URLs and process
names this repository compares). -/
def pyLower (s : String) : String := String.mk (s.toList.map Char.toLower)

/-- Python `c in s` for a single character. -/
def pyHasChar (s : String) (c : Char) : Bool := decide (c ∈ s.toList)

/-- One fuel-indexed step of Python `str.replace`: replace every
non-overlapping occurrence of `pat` by `rep`, scanning left to right.  The
fuel is the length of the subject string, which is always sufficient (each
step consumes at least one character when `pat` is non-empty). -/
def replaceAllAux (pat rep : List Char) : Nat → List Char → List Char
  | 0, s => s
  | fuel + 1, s =>
    if !pat.isEmpty && chListPrefix pat s then
      rep ++ replaceAllAux pat rep fuel (s.drop pat.length)
    else
      match s with
      | [] => []
      | c :: cs => c :: replaceAllAux pat rep fuel cs

/-- Python `s.replace(pat, rep)`. -/
def pyReplace (s pat rep : String) : String :=
  String.mk (replaceAllAux pat.toList rep.toList s.toList.length s.toList)

/-- A character outside the pattern survives replacement by the empty string:
used to show the query part of a URL survives scheme stripping. -/
theorem mem_replaceAllAux (c : Char) (pat : List Char) (hc : c ∉ pat) :
    ∀ fuel s, c ∈ s → c ∈ replaceAllAux pat [] fuel s := by
  intro fuel
  induction fuel with
  | zero => intro s hs; simpa [replaceAllAux] using hs
  | succ n ih =>
    intro s hs
    simp only [replaceAllAux]
    by_cases hp : (!pat.isEmpty && chListPrefix pat s) = true
    · rw [if_pos hp]
      rcases (Bool.and_eq_true _ _).mp hp with ⟨_, hpre⟩
      rcases (chListPrefix_iff pat s).mp hpre with ⟨t, ht⟩
      have hdrop : s.drop pat.length = t := by
        rw [← ht, List.drop_left]
      have : c ∈ pat ∨ c ∈ t := by
        rw [← ht] at hs; exact List.mem_append.mp hs
      rcases this with h | h
      · exact absurd h hc
      · simpa using ih (s.drop pat.length) (hdrop ▸ h)
    · rw [if_neg hp]
      cases s with
      | nil => simp at hs
      | cons d ds =>
        rcases List.mem_cons.mp hs with h | h
        · simp [h]
        · simp [ih ds h]

/-- A substring occurrence transports character membership. -/
theorem pyIn_mem (needle hay : String) (c : Char) (hn : pyIn needle hay = true)
    (hm : c ∈ needle.toList) : c ∈ hay.toList :=
  ((chListInfix_iff _ _).mp hn).subset hm

/-! ## Navigator data model (`src/navigator/base.py`)

The Selenium WebDriver is an external stateful object.  It is modelled as a
state type `σ` together with one `Except`-valued operation per driver call
the navigator issues; a raised WebDriver exception is an `.error`.  Reads
(`current_url`, `title`, `window_handles`) do not change the driver state;
commands return the successor state.  `time.sleep` is modelled by `tick`,
letting the page evolve while the script waits. -/

structure Driver (σ : Type) where
  currentUrl : σ → Except String String
  title : σ → Except String String
  windowHandles : σ → Except String (List String)
  navGet : σ → String → Except String σ
  executeScript : σ → String → List String → Except String σ
  switchToWindow : σ → String → Except String σ
  executeCdpCmd : σ → String → String → Except String σ
  tick : σ → σ

/-- `NavigationResult` of `src/navigator/base.py` (lines 16-30); the stored
exception object is modelled by its message. -/
structure NavigationResult where
  success : Bool
  url : String
  message : String
  errorMsg : Option String := none
deriving DecidableEq, Repr

/-- `Navigator.get_current_url` (base.py lines 86-91): the raw read with the
exception swallowed to `""`. -/
def get_current_url {σ : Type} (d : Driver σ) (s : σ) : String :=
  match d.currentUrl s with
  | .ok u => u
  | .error _ => ""

/-- `Navigator.get_page_title` (base.py lines 93-98). -/
def get_page_title {σ : Type} (d : Driver σ) (s : σ) : String :=
  match d.title s with
  | .ok t => t
  | .error _ => ""

/-- `Navigator.get_window_handles` (base.py lines 100-105). -/
def get_window_handles {σ : Type} (d : Driver σ) (s : σ) : List String :=
  match d.windowHandles s with
  | .ok l => l
  | .error _ => []

/-- `Navigator.switch_to_window` (base.py lines 107-121): the boolean result
together with the driver state it leaves behind (unchanged when the
underlying call raised). -/
def switch_to_window {σ : Type} (d : Driver σ) (s : σ) (handle : String) : σ × Bool :=
  match d.switchToWindow s handle with
  | .ok s' => (s', true)
  | .error _ => (s, false)

/-- `Navigator.switch_to_window_by_index` (base.py lines 123-139).  The index
is a Python `int`, hence `Int` here; the guard `0 <= index < len(handles)`
makes the subsequent indexing total. -/
def switch_to_window_by_index {σ : Type} (d : Driver σ) (s : σ) (index : Int) : σ × Bool :=
  let handles := get_window_handles d s
  if 0 ≤ index ∧ index < (handles.length : Int) then
    match handles.get? index.toNat with
    | some h => switch_to_window d s h
    | none => (s, false)
  else (s, false)

/-! ## `CometNavigator.navigate_to_url` (`src/browser/comet/navigator.py`)

The ghost `NavStep` log records which driver commands each run issued; it is
instrumentation only and does not influence control flow (the spec asks for
the escalation-step count to be verifiable by instrumentation). -/

inductive NavStep
  | driverGet
  | jsLocationHref
  | jsLocationReplace
  | windowOpen
  | tabSwitch
  | cdpEnable
  | cdpNavigate
deriving DecidableEq, Repr

/-- The script text `f"window.location.href = '{url}';"`. -/
def hrefScript (url : String) : String :=
  "window.location.href = \x27" ++ url ++ "\x27;"

/-- The script text `f"window.location.replace('{url}');"`. -/
def replaceScript (url : String) : String :=
  "window.location.replace(\x27" ++ url ++ "\x27);"

/-- The script text `"window.open(arguments[0], '_blank');"`. -/
def windowOpenScript : String :=
  "window.open(arguments[0], \x27_blank\x27);"

/-- Lines 56-86 of `src/browser/comet/navigator.py`: the initial
`driver.get` and the forced `window.location.href` injection (guarded by
the URL not having changed).  Returns the driver state, the Python local
`current_url`, and the instrumentation log.  Each `try` block covers the
script call, the sleep and the re-read, so a raising script leaves
`current_url` at its previous value. -/
def navigate_get_then_href {σ : Type} (d : Driver σ) (s : σ) (url : String) :
    σ × String × List NavStep :=
  let initialUrl := get_current_url d s
  let s1 := match d.navGet s url with
    | .ok t => t
    | .error _ => s
  let s2 := d.tick s1
  let current2 := get_current_url d s2
  if current2 == initialUrl && current2 != url then
    match d.executeScript s2 (hrefScript url) [] with
    | .ok t =>
      let t' := d.tick t
      (t', get_current_url d t', [NavStep.driverGet, NavStep.jsLocationHref])
    | .error _ => (s2, current2, [NavStep.driverGet, NavStep.jsLocationHref])
  else (s2, current2, [NavStep.driverGet])

/-- Lines 87-96 of `src/browser/comet/navigator.py`, continuing
`navigate_get_then_href`: the `location.replace` retry, guarded by the
target URL not occurring in the observed URL. -/
def navigate_attempts {σ : Type} (d : Driver σ) (s : σ) (url : String) :
    σ × String × List NavStep :=
  let p := navigate_get_then_href d s url
  let s4 := p.1
  let current4 := p.2.1
  let log4 := p.2.2
  if !(pyIn url current4) then
    match d.executeScript s4 (replaceScript url) [] with
    | .ok t =>
      let t' := d.tick t
      (t', get_current_url d t', log4 ++ [NavStep.jsLocationReplace])
    | .error _ => (s4, current4, log4 ++ [NavStep.jsLocationReplace])
  else (s4, current4, log4)

/-- Fallback 1 of `_navigate_file_url_fallback` (lines 133-150): the
`window.open` new-tab attempt with tab switch and verification.  Every
driver call sits inside the `try` block, so a raise yields `none`
(fall through to fallback 2); the first component is `some r` exactly when
this fallback verified. -/
def fallback_window_open {σ : Type} (d : Driver σ) (s : σ) (url : String) :
    Option NavigationResult × σ × List NavStep :=
  match d.executeScript s windowOpenScript [url] with
  | .error _ => (none, s, [NavStep.windowOpen])
  | .ok t =>
    let t1 := d.tick t
    let handles := get_window_handles d t1
    if handles.length > 1 then
      match handles.getLast? with
      | some h =>
        match d.switchToWindow t1 h with
        | .error _ => (none, t1, [NavStep.windowOpen, NavStep.tabSwitch])
        | .ok t2 =>
          let t3 := d.tick t2
          if pyStartsWith (pyLower (get_current_url d t3)) "file://" then
            (some ⟨true, url, "File loaded via window.open", none⟩, t3,
              [NavStep.windowOpen, NavStep.tabSwitch])
          else (none, t3, [NavStep.windowOpen, NavStep.tabSwitch])
      | none => (none, t1, [NavStep.windowOpen])
    else (none, t1, [NavStep.windowOpen])

/-- Fallback 2 of `_navigate_file_url_fallback` (lines 152-167): CDP
`Page.enable` + `Page.navigate`, then the final failure result when nothing
verified. -/
def fallback_cdp {σ : Type} (d : Driver σ) (s : σ) (url : String) (log : List NavStep) :
    NavigationResult × σ × List NavStep :=
  match d.executeCdpCmd s "Page.enable" "" with
  | .error _ =>
    (⟨false, url, "All navigation fallbacks failed", none⟩, s, log ++ [NavStep.cdpEnable])
  | .ok u =>
    match d.executeCdpCmd u "Page.navigate" url with
    | .error _ =>
      (⟨false, url, "All navigation fallbacks failed", none⟩, u,
        log ++ [NavStep.cdpEnable, NavStep.cdpNavigate])
    | .ok u1 =>
      let u2 := d.tick u1
      if pyStartsWith (pyLower (get_current_url d u2)) "file://" then
        (⟨true, url, "File loaded via CDP", none⟩, u2,
          log ++ [NavStep.cdpEnable, NavStep.cdpNavigate])
      else
        (⟨false, url, "All navigation fallbacks failed", none⟩, u2,
          log ++ [NavStep.cdpEnable, NavStep.cdpNavigate])

/-- `CometNavigator._navigate_file_url_fallback` (lines 123-167): fallback 1,
and when it did not verify, fallback 2 continuing from its state. -/
def navigate_file_url_fallback {σ : Type} (d : Driver σ) (s : σ) (url : String) :
    NavigationResult × σ × List NavStep :=
  match fallback_window_open d s url with
  | (some r, t, log) => (r, t, log)
  | (none, t, log) => fallback_cdp d t url log

/-- The scheme-stripping of line 110:
`url.replace('https://', '').replace('http://', '')`. -/
def normalizeHttp (url : String) : String :=
  pyReplace (pyReplace url "https://" "") "http://" ""

/-- `CometNavigator.navigate_to_url` (lines 37-121).  All driver calls inside
the outer `try` are individually guarded (`driver.get`, both script
injections and every fallback call sit in inner `try` blocks, and the
URL reads swallow exceptions), so the outer `except` branch of lines 119-121
is unreachable and the embedding is total.  For `file://` targets success
requires the observed URL to start with `file://`; any HTTP(S) outcome is a
success, with the mismatch case marked "possible redirect" (lines 108-117). -/
def navigate_to_url {σ : Type} (d : Driver σ) (s : σ) (url : String) :
    NavigationResult × σ × List NavStep :=
  let p := navigate_attempts d s url
  let s1 := p.1
  let current := p.2.1
  let log1 := p.2.2
  if pyStartsWith url "file://" then
    if pyStartsWith (pyLower current) "file://" then
      (⟨true, current, "File URL loaded successfully", none⟩, s1, log1)
    else
      let fb := navigate_file_url_fallback d s1 url
      (fb.1, fb.2.1, log1 ++ fb.2.2)
  else
    if pyIn (normalizeHttp url) current then
      (⟨true, current, "Navigation successful", none⟩, s1, log1)
    else
      (⟨true, current, "Navigation completed (possible redirect)", none⟩, s1, log1)

/-! ## Browser launcher (`src/browser_launcher/base.py`, `comet_launcher.py`) -/

/-- `BrowserConfig` (base.py lines 16-33).  Paths are strings; the timeout is
in milliseconds. -/
structure BrowserConfig where
  executablePath : String
  debugPort : Nat := 9222
  startMaximized : Bool := true
  allowFileAccess : Bool := true
  disableWebSecurity : Bool := false
  userDataDir : Option String := none
  extraArgs : List String := []
  timeoutMs : Nat := 12000

/-- `CometBrowserLauncher.get_launch_args` (comet_launcher.py lines 54-79). -/
def get_launch_args (cfg : BrowserConfig) : List String :=
  let args := [cfg.executablePath,
    "--remote-debugging-port=" ++ toString cfg.debugPort]
  let args := if cfg.startMaximized then args ++ ["--start-maximized"] else args
  let args := if cfg.allowFileAccess then
    args ++ ["--allow-file-access-from-files", "--allow-file-access"] else args
  let args := if cfg.disableWebSecurity then args ++ ["--disable-web-security"] else args
  let args := match cfg.userDataDir with
    | some dir => args ++ ["--user-data-dir=" ++ dir]
    | none => args
  args ++ cfg.extraArgs

/-- Python error values that `launch_and_attach` distinguishes:
`FileNotFoundError` propagates, `RuntimeError` triggers the one retry. -/
inductive PyErr
  | fileNotFound (msg : String)
  | runtime (msg : String)
deriving DecidableEq, Repr

/-- `BrowserLauncher.launch_browser` (base.py lines 108-140).  The spawned
process is represented by its argument vector; `try_alternate_format`
prefixes the flag block with the literal `"--"` separator token
(line 126). -/
def launch_browser (cfg : BrowserConfig) (fs : String → Bool) (tryAlternateFormat : Bool) :
    Except PyErr (List String) :=
  if fs cfg.executablePath = false then
    .error (.fileNotFound ("Browser executable not found: " ++ cfg.executablePath))
  else
    let args := get_launch_args cfg
    let args := if tryAlternateFormat then
      cfg.executablePath :: "--" :: args.drop 1 else args
    .ok args

/-- Outcome of one `requests.get` probe of the discovery endpoint:
a raised connection error, a non-ok HTTP status, a response whose `.json()`
raises, or an HTTP-ok response with JSON body. -/
inductive PollR
  | raise (msg : String)
  | notOk
  | badJson (msg : String)
  | ok (body : String)
deriving DecidableEq, Repr

/-- Environment of `wait_for_devtools`: what the endpoint answers when probed
at millisecond `t`, and how long (ms) that probe takes (the per-request
timeout caps it at about 500). -/
structure DevEnv where
  url : String
  poll : Nat → PollR
  dur : Nat → Nat

/-- The probe instants of the polling loop: each iteration spends the probe
duration plus the fixed 250 ms sleep of base.py line 165. -/
def pollTime (env : DevEnv) (t0 : Nat) : Nat → Nat
  | 0 => t0
  | n + 1 =>
    let t := pollTime env t0 n
    t + env.dur t + 250

/-- The message of the `RuntimeError` raised at base.py lines 167-170. -/
def devtoolsFailMsg (env : DevEnv) (lastExc : Option String) : String :=
  "DevTools not reachable at " ++ env.url ++ ". Last error: " ++ lastExc.getD "None"

/-- The `while time.time() < deadline` loop of base.py lines 158-165,
fuel-indexed.  `waitLoop_fuel_sufficient` below shows that with the fuel
`wait_for_devtools` supplies, the fuel-0 branch coincides with the
deadline-expired branch, so this is exactly the unbounded `while` loop. -/
def waitLoop (env : DevEnv) (deadline : Nat) : Nat → Nat → Option String → Except String String
  | 0, _, lastExc => .error (devtoolsFailMsg env lastExc)
  | fuel + 1, t, lastExc =>
    if t < deadline then
      match env.poll t with
      | .ok j => .ok j
      | .raise m => waitLoop env deadline fuel (t + env.dur t + 250) (some m)
      | .badJson m => waitLoop env deadline fuel (t + env.dur t + 250) (some m)
      | .notOk => waitLoop env deadline fuel (t + env.dur t + 250) lastExc
    else .error (devtoolsFailMsg env lastExc)

/-- `BrowserLauncher.wait_for_devtools` (base.py lines 142-170), started at
time `t0` with deadline `t0 + timeout`; the fuel `(deadline - t0)/250 + 1`
covers every iteration the time guard can admit. -/
def wait_for_devtools (env : DevEnv) (deadline t0 : Nat) : Except String String :=
  waitLoop env deadline ((deadline - t0) / 250 + 1) t0 none

/-! ### `kill_existing_processes` (base.py lines 75-106) -/

/-- One entry of `psutil.process_iter(['pid','name','exe','cmdline'])`.
Reading a process's info dict can itself fail (the process may have died);
that failure and a failing `kill` are the per-process errors the `except`
of line 103 swallows. -/
structure PSProc where
  pid : Nat
  info : Except String (Option String × Option String × Option (List String))
  kill : Except String Unit

/-- The host's process-introspection facility: whether `psutil` imports, and
the process table it enumerates. -/
structure PSEnv where
  psutilAvailable : Bool
  procs : List PSProc

/-- The match test of base.py lines 98-99 over the already-lowered name,
exe and command line. -/
def proc_matches (names : List String) (name exe cmd : String) : Bool :=
  names.any fun p => pyIn (pyLower p) name || pyIn (pyLower p) exe || pyIn (pyLower p) cmd

/-- The per-process body of the loop (lines 92-104): extract the lowered
fields, test, kill, count — with any error skipping just this process. -/
def kill_step (names : List String) (acc : Nat) (proc : PSProc) : Nat :=
  match proc.info with
  | .error _ => acc
  | .ok (n, e, c) =>
    let name := pyLower (n.getD "")
    let exe := pyLower (e.getD "")
    let cmd := pyLower (String.intercalate " " (c.getD []))
    if proc_matches names name exe cmd then
      match proc.kill with
      | .ok _ => acc + 1
      | .error _ => acc
    else acc

/-- `BrowserLauncher.kill_existing_processes` (lines 75-106): 0 when `psutil`
is unavailable, else the fold of `kill_step` over the process table.  The
result type `Nat` (not `Except`) reflects that every per-process error is
swallowed. -/
def kill_existing_processes (names : List String) (env : PSEnv) : Nat :=
  if env.psutilAvailable = false then 0
  else env.procs.foldl (kill_step names) 0

/-- Whether `kill_existing_processes` terminated this process: its info was
readable, it matched, and the kill call succeeded. -/
def proc_terminated (names : List String) (proc : PSProc) : Bool :=
  match proc.info with
  | .error _ => false
  | .ok (n, e, c) =>
    proc_matches names (pyLower (n.getD "")) (pyLower (e.getD ""))
        (pyLower (String.intercalate " " (c.getD []))) &&
      match proc.kill with
      | .ok _ => true
      | .error _ => false

/-! ### `launch_and_attach` (base.py lines 182-238) -/

/-- Ghost events recording what `launch_and_attach` did, in order. -/
inductive LEvent
  | killedExisting (count : Nat)
  | cleanedProfile
  | launch (args : List String)
  | killProcess
  | attached
deriving DecidableEq, Repr

/-- The external world of `launch_and_attach`: the filesystem, the process
table, whether the stale profile directory exists, the endpoint polling
environment of each launch attempt, and the `attach_selenium` outcome
(`.ok none` models the method returning `None`). -/
structure LaunchEnv where
  fs : String → Bool
  ps : PSEnv
  names : List String
  profileExists : Bool
  pollenv : Nat → DevEnv
  attach : Except String (Option String)

/-- Step 1 of `launch_and_attach` (lines 192-208): kill existing processes
and clean the profile directory, both best-effort. -/
def launch_step1 (cfg : BrowserConfig) (env : LaunchEnv) (killExisting : Bool) : List LEvent :=
  if killExisting then
    let evs := [LEvent.killedExisting (kill_existing_processes env.names env.ps)]
    match cfg.userDataDir with
    | some _ => if env.profileExists then evs ++ [LEvent.cleanedProfile] else evs
    | none => evs
  else []

/-- Step 3 of `launch_and_attach` (lines 229-238): `attach_selenium`, whose
raise propagates to the caller. -/
def launch_step3 (env : LaunchEnv) (evs : List LEvent) :
    Except PyErr (Option String) × List LEvent :=
  match env.attach with
  | .error m => (.error (.runtime m), evs)
  | .ok driver => (.ok driver, evs ++ [LEvent.attached])

/-- `BrowserLauncher.launch_and_attach` (lines 182-238).  The first launch
uses the standard argument form; a `RuntimeError` from `wait_for_devtools`
kills the process (best-effort) and retries once with the alternate `"--"`
form (lines 214-224); a second `RuntimeError` propagates.  A
`FileNotFoundError` from either `launch_browser` call is not a
`RuntimeError` and propagates immediately. -/
def launch_and_attach (cfg : BrowserConfig) (env : LaunchEnv) (killExisting : Bool := true) :
    Except PyErr (Option String) × List LEvent :=
  let ev1 := launch_step1 cfg env killExisting
  match launch_browser cfg env.fs false with
  | .error e => (.error e, ev1)
  | .ok args1 =>
    let ev2 := ev1 ++ [LEvent.launch args1]
    match wait_for_devtools (env.pollenv 0) cfg.timeoutMs 0 with
    | .ok _ => launch_step3 env ev2
    | .error _ =>
      let ev3 := ev2 ++ [LEvent.killProcess]
      match launch_browser cfg env.fs true with
      | .error e => (.error e, ev3)
      | .ok args2 =>
        let ev4 := ev3 ++ [LEvent.launch args2]
        match wait_for_devtools (env.pollenv 1) cfg.timeoutMs 0 with
        | .error m => (.error (.runtime m), ev4)
        | .ok _ => launch_step3 env ev4

/-- The launch attempts (argument vectors) among the events, in order. -/
def launchEventsOf (evs : List LEvent) : List (List String) :=
  evs.filterMap fun e =>
    match e with
    | .launch args => some args
    | _ => none

/-! ## Chromedriver resolution chain (`comet_launcher.py` lines 85-149) -/

/-- The maximal run of decimal digits at the head of a character list. -/
def digitRun : List Char → List Char × List Char
  | [] => ([], [])
  | c :: cs =>
    if c.isDigit then
      let (run, rest) := digitRun cs
      (c :: run, rest)
    else ([], c :: cs)

/-- `re.search(r"/(\d+)\.", browser_str)`: the first position holding a
slash followed by one or more digits followed by a dot; the returned group
is the digit run.  (Backtracking cannot shorten a greedy digit run here,
because the character after the run is not a digit and the pattern demands
a dot.) -/
def searchSlashMajor : List Char → Option String
  | [] => none
  | c :: cs =>
    if c = '/' then
      let (run, rest) := digitRun cs
      if !run.isEmpty && (rest.head? == some '.') then some (String.mk run)
      else searchSlashMajor cs
    else searchSlashMajor cs

/-- Environment of `_get_chromedriver_path`: availability of
`chromedriver_autoinstaller`, the `/json/version` probe (`.error` =
`requests.get` or `.json()` raised, `.ok none` = non-ok HTTP status,
`.ok (some b)` = the `Browser` field), the two installer entry points, the
manual download result, and `webdriver_manager` (`.error` also covers its
`ImportError`). -/
structure ChainEnv where
  cdaAvailable : Bool
  endpoint : Except String (Option String)
  installMajor : String → Except String String
  installDefault : Except String String
  download : Option String
  wdm : Except String String

/-- The `webdriver_manager` last resort (comet_launcher.py lines 140-147). -/
def wdm_fallback (env : ChainEnv) : Option String :=
  match env.wdm with
  | .ok p => some p
  | .error _ => none

/-- The chain after the autoinstaller phase (lines 134-149): the manual
download, then `webdriver_manager`, then `None`. -/
def manual_then_wdm (env : ChainEnv) : Option String :=
  match env.download with
  | some p => if p != "" then some p else wdm_fallback env
  | none => wdm_fallback env

/-- The `chromedriver_autoinstaller` phase (lines 94-132): returns the path
it would `return`, or `none` when control falls through to the fallbacks.
A raised `cda.install(chrome_major)` runs the bare-`except` retry
`cda.install()`; a raise from that (or from the version probe's own
`cda.install()` fallback) is caught by the outer `except` and falls
through.  The mismatch check of lines 116-118 discards the result only when
the path is truthy, contains `"141"` and the detected major is `"140"`. -/
def cda_phase (env : ChainEnv) : Option String :=
  if env.cdaAvailable then
    let driverPath : Option String :=
      match env.endpoint with
      | .error _ =>
        match env.installDefault with
        | .ok p => some p
        | .error _ => none
      | .ok none => none
      | .ok (some browserStr) =>
        match searchSlashMajor browserStr.toList with
        | none => none
        | some chromeMajor =>
          match env.installMajor chromeMajor with
          | .ok p =>
            if p != "" && pyIn "141" p && chromeMajor == "140" then none else some p
          | .error _ =>
            match env.installDefault with
            | .ok p => some p
            | .error _ => none
    match driverPath with
    | some p => if p != "" then some p else none
    | none => none
  else none

/-- `CometBrowserLauncher._get_chromedriver_path` (lines 85-149): the ordered
strategy chain. -/
def get_chromedriver_path (env : ChainEnv) : Option String :=
  match cda_phase env with
  | some p => some p
  | none => manual_then_wdm env

/-! ## Stream-completion detector (`navigator.py` lines 456-620) -/

/-- What `_is_actively_streaming` (lines 569-620) sees at one probe: whether
any stop-generating button is displayed, and whether any loading / spinner /
pulse-animation indicator is displayed.  Every selector query failure inside
it is swallowed, so the check is total. -/
structure DomObservation where
  stopButtonVisible : Bool
  loadingIndicatorVisible : Bool

/-- `CometNavigator._is_actively_streaming`: true when a stop button or a
loading indicator is visible. -/
def is_actively_streaming (o : DomObservation) : Bool :=
  o.stopButtonVisible || o.loadingIndicatorVisible

/-- Environment of `wait_for_response_streaming`: whether
`_find_latest_response_element` found an element, the length of the
element's stripped text at sample `n` (`.error` = the element read raised,
line 522), and the DOM indicators at sample `n`. -/
structure StreamEnv where
  found : Bool
  sample : Nat → Except String Nat
  dom : Nat → DomObservation

/-- The monitoring loop of `wait_for_response_streaming` (lines 492-528),
fuel-indexed by the number of 500 ms polls the timeout admits.  State:
sample index `n`, `previous_length`, `stable_count`.  Returns the result
together with the final sample index and the final stable count
(instrumentation).  A stable non-zero length increments the counter; at the
threshold 4 the streaming-indicator check either resets the counter to 0
and keeps polling (line 507) or declares completion; a changed length
resets the counter; a failed read leaves both untouched. -/
def waitStreamAux (env : StreamEnv) : Nat → Nat → Nat → Nat → Bool × Nat × Nat
  | 0, n, _, stable => (false, n, stable)
  | fuel + 1, n, prev, stable =>
    match env.sample n with
    | .error _ => waitStreamAux env fuel (n + 1) prev stable
    | .ok len =>
      if len = prev ∧ 0 < len then
        if stable + 1 ≥ 4 then
          if is_actively_streaming (env.dom n) then
            waitStreamAux env fuel (n + 1) prev 0
          else (true, n, stable + 1)
        else waitStreamAux env fuel (n + 1) prev (stable + 1)
      else waitStreamAux env fuel (n + 1) len 0

/-- `CometNavigator.wait_for_response_streaming` (lines 456-532): `False`
when no response element is found, else the monitoring loop from
`previous_length = 0`, `stable_count = 0`. -/
def wait_for_response_streaming (env : StreamEnv) (fuel : Nat) : Bool :=
  if env.found = false then false
  else (waitStreamAux env fuel 0 0 0).1

/-! ## Conversion layer (`src/conversion/base.py`) -/

/-- `ConversionResult` (base.py lines 14-34). -/
structure ConversionResult where
  success : Bool
  query : String
  response : Option String := none
  responseHtml : Option String := none
  htmlFilepath : Option String := none
  textFilepath : Option String := none
  error : Option String := none
deriving DecidableEq, Repr

/-- The abstract-method outcomes `BaseConversion.execute` composes: each may
raise (`.error`), which the outer `except` of lines 237-245 converts into a
failure result. -/
structure ConvEnv where
  sendQuery : Except String Bool
  captureResponse : Except String (Option String)
  saveHtml : Except String Bool
  captureHtml : Except String (Option String)
  saveText : Except String Bool

/-- Lines 188-207 of `BaseConversion.execute`: the optional HTML save and
HTML capture, yielding `(html_filepath, response_html)`; a raise aborts the
whole `try` body. -/
def html_phase (env : ConvEnv) (saveHtmlPath : Option String) :
    Except String (Option String × Option String) :=
  match saveHtmlPath with
  | some fp =>
    match env.saveHtml with
    | .error e => .error e
    | .ok saved =>
      if saved then
        match env.captureHtml with
        | .error e => .error e
        | .ok rh => .ok (some fp, rh)
      else .ok (none, none)
  | none => .ok (none, none)

/-- Lines 209-222 of `BaseConversion.execute`: the optional text save,
yielding `text_filepath`. -/
def text_phase (env : ConvEnv) (saveTextPath : Option String) :
    Except String (Option String) :=
  match saveTextPath with
  | some fp =>
    match env.saveText with
    | .error e => .error e
    | .ok saved => .ok (if saved then some fp else none)
  | none => .ok none

/-- The body of the `try` block of `BaseConversion.execute`
(lines 157-235) as an `Except` computation: any raise aborts to the outer
handler.  The final success condition is line 225,
`send_success and (not capture or response_text is not None)`, where
`send_success` is `True` on every path that reaches it. -/
def execute_body (env : ConvEnv) (query : String) (capture : Bool)
    (saveHtmlPath saveTextPath : Option String) : Except String ConversionResult :=
  match env.sendQuery with
  | .error e => .error e
  | .ok sendSuccess =>
    if sendSuccess = false then
      .ok ⟨false, query, none, none, none, none, some "Failed to send query"⟩
    else
      match (if capture then env.captureResponse else .ok none) with
      | .error e => .error e
      | .ok responseText =>
        match html_phase env saveHtmlPath with
        | .error e => .error e
        | .ok htmlPart =>
          match text_phase env saveTextPath with
          | .error e => .error e
          | .ok textFilepath =>
            let success := !capture || responseText.isSome
            .ok ⟨success, query, responseText, htmlPart.2, htmlPart.1, textFilepath,
              if success then none else some "Failed to capture response"⟩

/-- `BaseConversion.execute` (lines 133-245): the `try` body with the
`except Exception` handler of lines 237-245 wrapped around it. -/
def conversion_execute (env : ConvEnv) (query : String) (capture : Bool)
    (saveHtmlPath saveTextPath : Option String) : ConversionResult :=
  match execute_body env query capture saveHtmlPath saveTextPath with
  | .ok r => r
  | .error e => ⟨false, query, none, none, none, none, some e⟩

/-! ## Helper lemmas about the navigation embedding -/

/-- The `current_url` local always holds the swallowing read of the state the
first phase returns. -/
theorem navigate_get_then_href_observed {σ : Type} (d : Driver σ) (s : σ) (url : String) :
    (navigate_get_then_href d s url).2.1 =
      get_current_url d (navigate_get_then_href d s url).1 := by
  unfold navigate_get_then_href
  dsimp only
  split
  · split <;> rfl
  · rfl

/-- The `current_url` local always holds the swallowing read of the state
`navigate_attempts` returns. -/
theorem navigate_attempts_observed {σ : Type} (d : Driver σ) (s : σ) (url : String) :
    (navigate_attempts d s url).2.1 = get_current_url d (navigate_attempts d s url).1 := by
  unfold navigate_attempts
  dsimp only
  split
  · split
    · rfl
    · exact navigate_get_then_href_observed d s url
  · exact navigate_get_then_href_observed d s url

/-- Fallback 1 verifies only on a `file://`-schemed observed URL, always logs
the `window.open` attempt first, and a `some` outcome is the success result. -/
theorem fallback_window_open_spec {σ : Type} (d : Driver σ) (s : σ) (url : String) :
    (∀ r, (fallback_window_open d s url).1 = some r →
      r.success = true ∧
      pyStartsWith (pyLower (get_current_url d (fallback_window_open d s url).2.1))
        "file://" = true) ∧
    NavStep.windowOpen ∈ (fallback_window_open d s url).2.2 := by
  unfold fallback_window_open
  dsimp only
  repeat' split
  all_goals simp_all

/-- Fallback 2 verifies only on a `file://`-schemed observed URL; on failure
it has logged the `Page.enable` attempt; the incoming log is preserved. -/
theorem fallback_cdp_spec {σ : Type} (d : Driver σ) (s : σ) (url : String)
    (log : List NavStep) :
    ((fallback_cdp d s url log).1.success = true →
      pyStartsWith (pyLower (get_current_url d (fallback_cdp d s url log).2.1))
        "file://" = true) ∧
    ((fallback_cdp d s url log).1.success = false →
      NavStep.cdpEnable ∈ (fallback_cdp d s url log).2.2) ∧
    (∀ e, e ∈ log → e ∈ (fallback_cdp d s url log).2.2) := by
  unfold fallback_cdp
  dsimp only
  repeat' split
  all_goals simp_all [List.mem_append]

/-- The combined fallback ladder: success means the observed URL is
`file://`-schemed; failure means both the `window.open` attempt and the CDP
attempt were issued. -/
theorem navigate_file_url_fallback_spec {σ : Type} (d : Driver σ) (s : σ) (url : String) :
    ((navigate_file_url_fallback d s url).1.success = true →
      pyStartsWith (pyLower (get_current_url d (navigate_file_url_fallback d s url).2.1))
        "file://" = true) ∧
    ((navigate_file_url_fallback d s url).1.success = false →
      NavStep.windowOpen ∈ (navigate_file_url_fallback d s url).2.2 ∧
      NavStep.cdpEnable ∈ (navigate_file_url_fallback d s url).2.2) := by
  have h1 := fallback_window_open_spec d s url
  unfold navigate_file_url_fallback
  rcases hfb : fallback_window_open d s url with ⟨o, t, log⟩
  rw [hfb] at h1
  cases o with
  | some r =>
    dsimp only
    refine ⟨fun _ => ?_, fun hf => ?_⟩
    · exact (h1.1 r rfl).2
    · exact absurd hf (by simp [(h1.1 r rfl).1])
  | none =>
    dsimp only
    have h2 := fallback_cdp_spec d t url log
    refine ⟨h2.1, fun hf => ⟨?_, h2.2.1 hf⟩⟩
    exact h2.2.2 _ (by simpa using h1.2)

/-- For a non-`file://` target whose normalized form occurs in the observed
URL, `navigate_to_url` returns the plain success result (line 113). -/
theorem navigate_to_url_http_match {σ : Type} (d : Driver σ) (s : σ) (url : String)
    (hf : pyStartsWith url "file://" = false)
    (hc : pyIn (normalizeHttp url) (navigate_attempts d s url).2.1 = true) :
    navigate_to_url d s url =
      (⟨true, (navigate_attempts d s url).2.1, "Navigation successful", none⟩,
        (navigate_attempts d s url).1, (navigate_attempts d s url).2.2) := by
  unfold navigate_to_url
  dsimp only
  rw [if_neg (by simp [hf]), if_pos hc]

/-- For a non-`file://` target whose normalized form does not occur in the
observed URL, `navigate_to_url` returns the possible-redirect success result
(line 117). -/
theorem navigate_to_url_http_mismatch {σ : Type} (d : Driver σ) (s : σ) (url : String)
    (hf : pyStartsWith url "file://" = false)
    (hc : pyIn (normalizeHttp url) (navigate_attempts d s url).2.1 = false) :
    navigate_to_url d s url =
      (⟨true, (navigate_attempts d s url).2.1,
          "Navigation completed (possible redirect)", none⟩,
        (navigate_attempts d s url).1, (navigate_attempts d s url).2.2) := by
  unfold navigate_to_url
  dsimp only
  rw [if_neg (by simp [hf]), if_neg (by simp [hc])]

/-! ## Concrete drivers used as witnesses and counterexamples -/

/-- A driver whose page ends up at `http://example.com/page` (the target's
path without its query string) after the first `driver.get`, and which
rejects every script injection. -/
def queryDropDriver : Driver Nat where
  currentUrl := fun s => .ok (if s = 0 then "about:blank" else "http://example.com/page")
  title := fun _ => .error "no title"
  windowHandles := fun _ => .ok []
  navGet := fun s _ => .ok (s + 1)
  executeScript := fun _ _ _ => .error "script blocked"
  switchToWindow := fun _ _ => .error "blocked"
  executeCdpCmd := fun _ _ _ => .error "blocked"
  tick := id

/-- A driver whose page lands on an error URL that mentions the `file://`
target but is not `file://`-schemed, and which rejects scripts and CDP
commands: it drives `navigate_to_url` into the failure result while
skipping every guarded escalation step. -/
def fileStuckDriver : Driver Nat where
  currentUrl := fun s =>
    .ok (if s = 0 then "about:blank" else "chrome-error://loader#file:///tmp/a.html")
  title := fun _ => .error "no title"
  windowHandles := fun _ => .ok ["h0"]
  navGet := fun s _ => .ok (s + 1)
  executeScript := fun _ _ _ => .error "script blocked"
  switchToWindow := fun _ _ => .error "blocked"
  executeCdpCmd := fun _ _ _ => .error "cdp blocked"
  tick := id

/-- A driver already sitting on the requested `file://` page. -/
def fileHappyDriver : Driver Nat where
  currentUrl := fun _ => .ok "file:///tmp/b.html"
  title := fun _ => .ok "b"
  windowHandles := fun _ => .ok ["h0"]
  navGet := fun s _ => .ok (s + 1)
  executeScript := fun s _ _ => .ok (s + 1)
  switchToWindow := fun s _ => .ok (s + 1)
  executeCdpCmd := fun s _ _ => .ok (s + 1)
  tick := id

/-- A driver that lands on an unrelated page. -/
def redirectDriver : Driver Nat where
  currentUrl := fun s => .ok (if s = 0 then "start:blank" else "http://other.example/landing")
  title := fun _ => .ok "t"
  windowHandles := fun _ => .ok []
  navGet := fun s _ => .ok (s + 1)
  executeScript := fun _ _ _ => .error "script blocked"
  switchToWindow := fun _ _ => .error "blocked"
  executeCdpCmd := fun _ _ _ => .error "blocked"
  tick := id

/-- A driver every one of whose underlying calls raises. -/
def raisingDriver : Driver Unit where
  currentUrl := fun _ => .error "boom"
  title := fun _ => .error "boom"
  windowHandles := fun _ => .error "boom"
  navGet := fun _ _ => .error "boom"
  executeScript := fun _ _ _ => .error "boom"
  switchToWindow := fun _ _ => .error "boom"
  executeCdpCmd := fun _ _ _ => .error "boom"
  tick := id

/-! ## Claim C1 -/

/-- Claim C1, counterexample: for the target
`http://example.com/page?x=1` the observed URI `http://example.com/page`
matches the host and path (the query-stripped target occurs in it) and
omits the query string, yet `navigate_to_url` classifies the attempt as a
success — not as the verification failure the claim requires. -/
theorem query_drop_counterexample :
    (navigate_to_url queryDropDriver 0 "http://example.com/page?x=1").1.success = true ∧
    (navigate_to_url queryDropDriver 0 "http://example.com/page?x=1").1.url =
      "http://example.com/page" ∧
    pyIn "example.com/page" "http://example.com/page" = true ∧
    pyHasChar "http://example.com/page?x=1" '?' = true ∧
    pyHasChar "http://example.com/page" '?' = false := by decide

/-- Claim C1 (amended): for every http(s) `NavigationTarget` whose URI
contains a query string, when the observed URI after navigation omits the
query string, `navigate_to_url` classifies the attempt as a SUCCESS
outcome carrying the diagnostic "Navigation completed (possible redirect)";
the code has no distinct query-parameters-dropped failure mode. -/
theorem query_drop_classified_redirect_success {σ : Type} (d : Driver σ) (s : σ)
    (url : String)
    (hf : pyStartsWith url "file://" = false)
    (hq : pyHasChar url '?' = true)
    (hobs : pyHasChar (navigate_to_url d s url).1.url '?' = false) :
    (navigate_to_url d s url).1.success = true ∧
    (navigate_to_url d s url).1.message = "Navigation completed (possible redirect)" := by
  have hqmem : '?' ∈ url.toList := by
    simpa [pyHasChar] using hq
  have hqn : '?' ∈ (normalizeHttp url).toList := by
    have h1 : '?' ∈ (pyReplace url "https://" "").toList :=
      mem_replaceAllAux '?' ("https://".toList) (by decide) _ _ hqmem
    exact mem_replaceAllAux '?' ("http://".toList) (by decide) _ _ h1
  by_cases hc : pyIn (normalizeHttp url) (navigate_attempts d s url).2.1 = true
  · exfalso
    have hcur : (navigate_to_url d s url).1.url = (navigate_attempts d s url).2.1 := by
      rw [navigate_to_url_http_match d s url hf hc]
    have hmem : '?' ∈ ((navigate_attempts d s url).2.1).toList := pyIn_mem _ _ _ hc hqn
    rw [← hcur] at hmem
    simp [pyHasChar] at hobs
    exact hobs hmem
  · rw [navigate_to_url_http_mismatch d s url hf (by simpa using hc)]
    exact ⟨rfl, rfl⟩

/-- Claim C1, witness for the amended theorem at the concrete driver. -/
theorem query_drop_classified_redirect_success_witness :
    (navigate_to_url queryDropDriver 0 "http://example.com/page?x=1").1.success = true ∧
    (navigate_to_url queryDropDriver 0 "http://example.com/page?x=1").1.message =
      "Navigation completed (possible redirect)" :=
  query_drop_classified_redirect_success queryDropDriver 0 "http://example.com/page?x=1"
    (by decide) (by decide) (by decide)

/-! ## Claim C2 -/

/-- Claim C2, counterexample: a `file://` navigation that ends in a failure
outcome although the script-injection steps, the tab switch and the CDP
`Page.navigate` command were never attempted — the `window.location.href`
guard fails (the URL did change), the `location.replace` guard fails (the
target occurs in the observed URL), only one window handle exists, and
`Page.enable` raises before `Page.navigate` is reached.  The failure is
therefore not preceded by "every escalation fallback step". -/
theorem file_failure_without_all_steps_counterexample :
    pyStartsWith "file:///tmp/a.html" "file://" = true ∧
    (navigate_to_url fileStuckDriver 0 "file:///tmp/a.html").1.success = false ∧
    NavStep.jsLocationHref ∉ (navigate_to_url fileStuckDriver 0 "file:///tmp/a.html").2.2 ∧
    NavStep.jsLocationReplace ∉
      (navigate_to_url fileStuckDriver 0 "file:///tmp/a.html").2.2 ∧
    NavStep.tabSwitch ∉ (navigate_to_url fileStuckDriver 0 "file:///tmp/a.html").2.2 ∧
    NavStep.cdpNavigate ∉ (navigate_to_url fileStuckDriver 0 "file:///tmp/a.html").2.2 := by
  decide

/-- Claim C2 (amended): for every `file://` target, `navigate_to_url`
returns either a success outcome under which the observed current URI is
`file://`-schemed, or a failure outcome; a failure outcome is returned only
after both unconditional fallback attempts — the `window.open` script call
and the CDP attempt (`Page.enable`) — have been issued and failed to
verify.  The script-injection steps, the tab switch and `Page.navigate`
itself are guarded and may be skipped. -/
theorem file_navigation_scheme_or_fallbacks {σ : Type} (d : Driver σ) (s : σ)
    (url : String) (hf : pyStartsWith url "file://" = true) :
    ((navigate_to_url d s url).1.success = true →
      pyStartsWith (pyLower (get_current_url d (navigate_to_url d s url).2.1))
        "file://" = true) ∧
    ((navigate_to_url d s url).1.success = false →
      NavStep.windowOpen ∈ (navigate_to_url d s url).2.2 ∧
      NavStep.cdpEnable ∈ (navigate_to_url d s url).2.2) := by
  unfold navigate_to_url
  dsimp only
  rw [if_pos hf]
  by_cases hc :
      pyStartsWith (pyLower (navigate_attempts d s url).2.1) "file://" = true
  · rw [if_pos hc]
    refine ⟨fun _ => ?_, fun hfail => by simp_all⟩
    rw [← navigate_attempts_observed d s url]
    exact hc
  · rw [if_neg hc]
    have hspec := navigate_file_url_fallback_spec d (navigate_attempts d s url).1 url
    refine ⟨fun hsucc => ?_, fun hfail => ?_⟩
    · exact hspec.1 hsucc
    · rcases hspec.2 hfail with ⟨h1, h2⟩
      exact ⟨List.mem_append_right _ h1, List.mem_append_right _ h2⟩

/-- Claim C2, witness: on a driver already on the requested `file://` page
the run succeeds and the observed URI is `file://`-schemed. -/
theorem file_navigation_scheme_or_fallbacks_witness :
    pyStartsWith
      (pyLower (get_current_url fileHappyDriver
        (navigate_to_url fileHappyDriver 0 "file:///tmp/b.html").2.1)) "file://" = true :=
  (file_navigation_scheme_or_fallbacks fileHappyDriver 0 "file:///tmp/b.html"
    (by decide)).1 (by decide)

/-! ## Claim C8 -/

/-- Claim C8: for http(s) targets (here: without a query string, the case
the spec marks as the open question) where the scheme-stripped target does
not occur in the observed URI after all navigation attempts,
`navigate_to_url` still returns a success outcome whose diagnostic message
records a possible redirect. -/
theorem http_mismatch_tolerated_as_success {σ : Type} (d : Driver σ) (s : σ)
    (url : String)
    (hf : pyStartsWith url "file://" = false)
    (_hnoq : pyHasChar url '?' = false)
    (hsub : pyIn (normalizeHttp url) (navigate_to_url d s url).1.url = false) :
    (navigate_to_url d s url).1.success = true ∧
    (navigate_to_url d s url).1.message = "Navigation completed (possible redirect)" := by
  by_cases hc : pyIn (normalizeHttp url) (navigate_attempts d s url).2.1 = true
  · exfalso
    have hcur : (navigate_to_url d s url).1.url = (navigate_attempts d s url).2.1 := by
      rw [navigate_to_url_http_match d s url hf hc]
    rw [hcur] at hsub
    simp [hc] at hsub
  · rw [navigate_to_url_http_mismatch d s url hf (by simpa using hc)]
    exact ⟨rfl, rfl⟩

/-- Claim C8, witness at the concrete redirecting driver. -/
theorem http_mismatch_tolerated_as_success_witness :
    (navigate_to_url redirectDriver 0 "http://example.com/a").1.success = true ∧
    (navigate_to_url redirectDriver 0 "http://example.com/a").1.message =
      "Navigation completed (possible redirect)" :=
  http_mismatch_tolerated_as_success redirectDriver 0 "http://example.com/a"
    (by decide) (by decide) (by decide)

/-! ## Claim C10 -/

/-- Claim C10: every Navigator read accessor is total over driver failures —
raising reads yield `""`/`[]`, raising window switches yield `false`, and
an out-of-range index yields `false`, instead of propagating the
exception. -/
theorem navigator_accessors_total {σ : Type} (d : Driver σ) (s : σ) (handle : String) :
    (∀ e, d.currentUrl s = .error e → get_current_url d s = "") ∧
    (∀ e, d.title s = .error e → get_page_title d s = "") ∧
    (∀ e, d.windowHandles s = .error e → get_window_handles d s = []) ∧
    (∀ e, d.switchToWindow s handle = .error e → (switch_to_window d s handle).2 = false) ∧
    (∀ i : Int, (i < 0 ∨ ((get_window_handles d s).length : Int) ≤ i) →
      (switch_to_window_by_index d s i).2 = false) ∧
    ((∀ h, ∃ e, d.switchToWindow s h = .error e) →
      ∀ i : Int, (switch_to_window_by_index d s i).2 = false) := by
  refine ⟨?_, ?_, ?_, ?_, ?_, ?_⟩
  · intro e he; unfold get_current_url; rw [he]
  · intro e he; unfold get_page_title; rw [he]
  · intro e he; unfold get_window_handles; rw [he]
  · intro e he; unfold switch_to_window; rw [he]
  · intro i hi
    unfold switch_to_window_by_index
    dsimp only
    rw [if_neg]
    omega
  · intro hall i
    unfold switch_to_window_by_index
    dsimp only
    split
    · rcases hmem : (get_window_handles d s).get? i.toNat with _ | h
      · simp [hmem]
      · rcases hall h with ⟨e, he⟩
        simp [hmem]
        unfold switch_to_window
        rw [he]
    · rfl

/-! ## Claim C3 -/

/-- Claim C3: the stream-completion detector never declares completion while
a streaming indicator is present.  (a) Whenever the stability counter
reaches its threshold (the 4th consecutive unchanged non-zero sample) but an
indicator is detected, the counter is reset to 0 and polling continues
unchanged.  (b) The loop returns `true` only at a sample where the counter
reached the threshold, the sampled length is non-zero and stable, and no
streaming indicator is present. -/
theorem stream_completion_never_while_streaming (env : StreamEnv)
    (fuel n prev stable : Nat) :
    (∀ len, env.sample n = .ok len → len = prev → 0 < len → 3 ≤ stable →
      is_actively_streaming (env.dom n) = true →
      waitStreamAux env (fuel + 1) n prev stable = waitStreamAux env fuel (n + 1) prev 0) ∧
    ((waitStreamAux env fuel n prev stable).1 = true →
      4 ≤ (waitStreamAux env fuel n prev stable).2.2 ∧
      is_actively_streaming (env.dom (waitStreamAux env fuel n prev stable).2.1) = false ∧
      ∃ len, env.sample (waitStreamAux env fuel n prev stable).2.1 = .ok len ∧ 0 < len) := by
  constructor
  · intro len hs hlen hpos hst hstream
    simp only [waitStreamAux, hs]
    rw [if_pos ⟨hlen, hpos⟩, if_pos (by omega), if_pos hstream]
  · induction fuel generalizing n prev stable with
    | zero => intro h; simp [waitStreamAux] at h
    | succ m ih =>
      intro h
      rcases hs : env.sample n with e | len
      all_goals simp only [waitStreamAux, hs] at h ⊢
      · exact ih _ _ _ h
      · by_cases h1 : len = prev ∧ 0 < len
        · rw [if_pos h1] at h ⊢
          by_cases h2 : stable + 1 ≥ 4
          · rw [if_pos h2] at h ⊢
            by_cases h3 : is_actively_streaming (env.dom n) = true
            · rw [if_pos h3] at h ⊢
              exact ih _ _ _ h
            · rw [if_neg h3] at h ⊢
              refine ⟨h2, by simpa using h3, len, hs, h1.2⟩
          · rw [if_neg h2] at h ⊢
            exact ih _ _ _ h
        · rw [if_neg h1] at h ⊢
          exact ih _ _ _ h

/-- The concrete stream: constant text length 7, indicators visible through
sample 4 and gone from sample 5 on. -/
def pausedStream : StreamEnv where
  found := true
  sample := fun _ => .ok 7
  dom := fun n => ⟨decide (n < 5), false⟩

/-- Claim C3, witness: at sample 4 the counter has reached the threshold but
the stop button is still visible, so the step reduces to polling on with the
counter reset; the full run from the initial state completes at sample 8,
where no indicator is present. -/
theorem stream_completion_never_while_streaming_witness :
    waitStreamAux pausedStream 16 4 7 3 = waitStreamAux pausedStream 15 5 7 0 ∧
    is_actively_streaming
      (pausedStream.dom (waitStreamAux pausedStream 20 0 0 0).2.1) = false :=
  ⟨(stream_completion_never_while_streaming pausedStream 15 4 7 3).1 7 rfl rfl
      (by decide) (by decide) (by decide),
    ((stream_completion_never_while_streaming pausedStream 20 0 0 0).2 (by decide)).2.1⟩

/-! ## Claim C7 -/

/-- `kill_step` adds exactly one for a terminated process. -/
theorem kill_step_eq (names : List String) (acc : Nat) (proc : PSProc) :
    kill_step names acc proc = acc + (if proc_terminated names proc then 1 else 0) := by
  unfold kill_step proc_terminated
  repeat' split
  all_goals simp_all

/-- The fold of `kill_step` counts the terminated processes. -/
theorem kill_fold (names : List String) :
    ∀ (l : List PSProc) (acc : Nat),
      l.foldl (kill_step names) acc = acc + l.countP (proc_terminated names) := by
  intro l
  induction l with
  | nil => intro acc; simp
  | cons p ps ih =>
    intro acc
    rw [List.foldl_cons, ih, kill_step_eq, List.countP_cons]
    omega

/-- Claim C7: `kill_existing_processes` is a no-op returning 0 when process
introspection is unavailable; otherwise it returns exactly the number of
processes it terminated (readable info, matching name/exe/cmdline, kill
succeeded) — per-process errors are swallowed and the function is total, so
it never fails its caller. -/
theorem kill_existing_processes_spec (names : List String) (env : PSEnv) :
    (env.psutilAvailable = false → kill_existing_processes names env = 0) ∧
    (env.psutilAvailable = true →
      kill_existing_processes names env = env.procs.countP (proc_terminated names)) := by
  constructor
  · intro h
    unfold kill_existing_processes
    rw [if_pos h]
  · intro h
    unfold kill_existing_processes
    rw [if_neg (by simp [h]), kill_fold]
    omega

/-- A two-process table: one matching process whose kill succeeds, one whose
info read raises. -/
def sampleProcs : PSEnv where
  psutilAvailable := true
  procs :=
    [⟨10, .ok (some "comet.exe", some "C:/apps/comet.exe", some ["comet.exe"]), .ok ()⟩,
      ⟨11, .error "NoSuchProcess", .ok ()⟩]

/-- Claim C7, witness: with `psutil` absent the call returns 0; on the
sample table it returns exactly the one terminated process. -/
theorem kill_existing_processes_spec_witness :
    kill_existing_processes ["comet", "comet.exe", "perplexity"]
        ⟨false, sampleProcs.procs⟩ = 0 ∧
    kill_existing_processes ["comet", "comet.exe", "perplexity"] sampleProcs = 1 :=
  ⟨(kill_existing_processes_spec ["comet", "comet.exe", "perplexity"]
      ⟨false, sampleProcs.procs⟩).1 rfl,
    by
      rw [(kill_existing_processes_spec ["comet", "comet.exe", "perplexity"]
        sampleProcs).2 rfl]
      decide⟩

/-! ## Claim C9 -/

/-- Inversion of the non-exception path of `execute_body`: the result keeps
the query, and its success bit is exactly
`send_success and (not capture or response_text is not None)`. -/
theorem execute_body_ok_spec (env : ConvEnv) (query : String) (capture : Bool)
    (sh st : Option String) (r : ConversionResult)
    (h : execute_body env query capture sh st = .ok r) :
    r.query = query ∧
    (r.success = true ↔
      env.sendQuery = .ok true ∧ (capture = false ∨ r.response.isSome = true)) := by
  unfold execute_body at h
  rcases hsq : env.sendQuery with e | b <;> rw [hsq] at h <;> dsimp only at h
  · exact absurd h (by simp)
  · by_cases hb : b = false
    · rw [if_pos hb] at h
      obtain rfl :
          (⟨false, query, none, none, none, none, some "Failed to send query"⟩ :
            ConversionResult) = r := by
        simpa using h
      subst hb
      simp [hsq]
    · have hb' : b = true := by cases b <;> simp_all
      subst hb'
      rw [if_neg hb] at h
      rcases hcr : (if capture then env.captureResponse else Except.ok none) with e | rt <;>
        rw [hcr] at h
      · exact absurd h (by simp)
      · rcases hhp : html_phase env sh with e | hp <;> rw [hhp] at h
        · exact absurd h (by simp)
        · rcases htp : text_phase env st with e | tf <;> rw [htp] at h
          · exact absurd h (by simp)
          · dsimp only at h
            obtain rfl :
                (⟨!capture || rt.isSome, query, rt, hp.2, hp.1, tf,
                  if (!capture || rt.isSome) = true then none
                  else some "Failed to capture response"⟩ : ConversionResult) = r := by
              simpa using h
            refine ⟨rfl, ?_⟩
            simp only [hsq, true_and]
            cases capture <;> simp

/-- Claim C9: `BaseConversion.execute` never raises — the embedding is a
total function whose exceptional branch turns the raised message into a
`success = false` result carrying it as `error`; in the non-exception case
`success = true` iff the query was sent successfully and (capture was not
requested, or a non-`None` response text was captured); and the result
always carries the original query text unchanged. -/
theorem conversion_execute_spec (env : ConvEnv) (query : String) (capture : Bool)
    (sh st : Option String) :
    ((conversion_execute env query capture sh st).query = query) ∧
    (∀ e, execute_body env query capture sh st = .error e →
      conversion_execute env query capture sh st =
        ⟨false, query, none, none, none, none, some e⟩) ∧
    (∀ r, execute_body env query capture sh st = .ok r →
      (r.success = true ↔
        env.sendQuery = .ok true ∧ (capture = false ∨ r.response.isSome = true))) := by
  refine ⟨?_, ?_, ?_⟩
  · unfold conversion_execute
    rcases h : execute_body env query capture sh st with e | r
    · rfl
    · exact (execute_body_ok_spec env query capture sh st r h).1
  · intro e he
    unfold conversion_execute
    rw [he]
  · intro r hr
    exact (execute_body_ok_spec env query capture sh st r hr).2

/-! ## Claim C4 -/

/-- The environment of the spec's end-to-end scenario: the browser reports
major 120, the first strategy hands back a driver whose embedded version is
121, and the later strategies hold a correct 120 driver. -/
def mismatch121Env : ChainEnv where
  cdaAvailable := true
  endpoint := .ok (some "Chrome/120.0.6099.109")
  installMajor := fun _ => .ok "chromedriver_121.0.6167.85/chromedriver.exe"
  installDefault := .error "unused"
  download := some "chromedriver_120.0.6099.109/chromedriver.exe"
  wdm := .ok "wdm/chromedriver.exe"

/-- Claim C4, counterexample: the detected major is `120`, the first
strategy's driver embeds `121` (and not `120`), yet the chain accepts it —
the later strategy's correct `120` driver is never used.  The
version-mismatch discard of the source fires only for the literal pair
`"141"`-in-path / major `"140"`. -/
theorem version_mismatch_accepted_counterexample :
    searchSlashMajor ("Chrome/120.0.6099.109".toList) = some "120" ∧
    pyIn "121" "chromedriver_121.0.6167.85/chromedriver.exe" = true ∧
    pyIn "120" "chromedriver_121.0.6167.85/chromedriver.exe" = false ∧
    get_chromedriver_path mismatch121Env =
      some "chromedriver_121.0.6167.85/chromedriver.exe" := by decide

/-- Claim C4 (amended): the only version-mismatch self-correction in the
chain is the hard-coded pair of lines 116-118 — when the detected major is
exactly `"140"` and the first strategy's path contains `"141"`, that result
is discarded and the later strategies (manual download, then
`webdriver_manager`) decide; every other non-empty first-strategy result is
accepted as-is, whatever its embedded version. -/
theorem version_mismatch_only_140_141 (env : ChainEnv) (browserStr major p : String)
    (hcda : env.cdaAvailable = true)
    (hep : env.endpoint = .ok (some browserStr))
    (hmaj : searchSlashMajor browserStr.toList = some major)
    (hinst : env.installMajor major = .ok p)
    (hne : (p != "") = true) :
    (pyIn "141" p = true ∧ major = "140" →
      get_chromedriver_path env = manual_then_wdm env) ∧
    (¬(pyIn "141" p = true ∧ major = "140") →
      get_chromedriver_path env = some p) := by
  have hphase : cda_phase env =
      (if p != "" && pyIn "141" p && major == "140" then none else some p).bind
        (fun q => if q != "" then some q else none) := by
    unfold cda_phase
    rw [if_pos hcda, hep]
    dsimp only
    rw [hmaj]
    dsimp only
    rw [hinst]
    dsimp only
    by_cases hm : (p != "" && pyIn "141" p && major == "140") = true
    · rw [if_pos hm]
      rfl
    · rw [if_neg hm]
      rfl
  constructor
  · rintro ⟨h141, h140⟩
    unfold get_chromedriver_path
    rw [hphase, if_pos (by simp [hne, h141, h140])]
    rfl
  · intro hnot
    unfold get_chromedriver_path
    rw [hphase, if_neg ?_]
    · dsimp only [Option.bind]
      rw [if_pos hne]
    · intro hcond
      simp only [Bool.and_eq_true, beq_iff_eq] at hcond
      exact hnot ⟨hcond.1.2, hcond.2⟩

/-! ## Claim C6 -/

theorem pollTime_succ (env : DevEnv) (t0 n : Nat) :
    pollTime env t0 (n + 1) =
      pollTime env t0 n + env.dur (pollTime env t0 n) + 250 := rfl

theorem pollTime_mono (env : DevEnv) (t0 : Nat) : Monotone (pollTime env t0) :=
  monotone_nat_of_le_succ fun n => by rw [pollTime_succ]; omega

/-- Any error `waitLoop` produces is the `EndpointUnreachable` message. -/
theorem waitLoop_error_shape (env : DevEnv) (deadline : Nat) :
    ∀ fuel t lastExc msg, waitLoop env deadline fuel t lastExc = .error msg →
      ∃ l, msg = devtoolsFailMsg env l := by
  intro fuel
  induction fuel with
  | zero =>
    intro t l msg h
    simp only [waitLoop] at h
    exact ⟨l, by simpa using h.symm⟩
  | succ m ih =>
    intro t l msg h
    simp only [waitLoop] at h
    by_cases ht : t < deadline
    · rw [if_pos ht] at h
      rcases hp : env.poll t with m1 | _ | m1 | j <;> rw [hp] at h
      · exact ih _ _ _ h
      · exact ih _ _ _ h
      · exact ih _ _ _ h
      · simp at h
    · rw [if_neg ht] at h
      exact ⟨l, by simpa using h.symm⟩

/-- The loop invariant: with fuel exceeding the remaining time divided by the
minimal 250 ms step, `waitLoop` starting at probe index `k` returns the
first HTTP-ok JSON body among the probes before the deadline, and errors
exactly when there is none. -/
theorem waitLoop_spec (env : DevEnv) (deadline t0 : Nat) :
    ∀ fuel k lastExc,
      deadline - pollTime env t0 k ≤ 250 * fuel →
      (∀ j, waitLoop env deadline fuel (pollTime env t0 k) lastExc = .ok j →
        ∃ n, k ≤ n ∧ pollTime env t0 n < deadline ∧
          env.poll (pollTime env t0 n) = .ok j ∧
          ∀ m, k ≤ m → m < n → ∀ j', env.poll (pollTime env t0 m) ≠ .ok j') ∧
      (∀ msg, waitLoop env deadline fuel (pollTime env t0 k) lastExc = .error msg →
        ∀ n, k ≤ n → pollTime env t0 n < deadline →
          ∀ j', env.poll (pollTime env t0 n) ≠ .ok j') := by
  intro fuel
  induction fuel with
  | zero =>
    intro k lastExc hinv
    constructor
    · intro j hj
      simp [waitLoop] at hj
    · intro msg _ n hkn hlt j'
      have := pollTime_mono env t0 hkn
      omega
  | succ m ih =>
    intro k lastExc hinv
    by_cases ht : pollTime env t0 k < deadline
    · have hstep : pollTime env t0 k + env.dur (pollTime env t0 k) + 250 =
          pollTime env t0 (k + 1) := (pollTime_succ env t0 k).symm
      have hinv' : deadline - pollTime env t0 (k + 1) ≤ 250 * m := by
        have := pollTime_succ env t0 k
        omega
      simp only [waitLoop]
      rw [if_pos ht]
      rcases hp : env.poll (pollTime env t0 k) with m1 | _ | m1 | j
      · rw [hstep]
        rcases ih (k + 1) (some m1) hinv' with ⟨hok, herr⟩
        constructor
        · intro j hj
          rcases hok j hj with ⟨n, hn1, hn2, hn3, hn4⟩
          refine ⟨n, by omega, hn2, hn3, fun m' hm1 hm2 j' => ?_⟩
          rcases Nat.eq_or_lt_of_le hm1 with rfl | hlt
          · simp [hp]
          · exact hn4 m' (by omega) hm2 j'
        · intro msg hmsg n hkn hlt j'
          rcases Nat.eq_or_lt_of_le hkn with rfl | hlt'
          · simp [hp]
          · exact herr msg hmsg n (by omega) hlt j'
      · rw [hstep]
        rcases ih (k + 1) lastExc hinv' with ⟨hok, herr⟩
        constructor
        · intro j hj
          rcases hok j hj with ⟨n, hn1, hn2, hn3, hn4⟩
          refine ⟨n, by omega, hn2, hn3, fun m' hm1 hm2 j' => ?_⟩
          rcases Nat.eq_or_lt_of_le hm1 with rfl | hlt
          · simp [hp]
          · exact hn4 m' (by omega) hm2 j'
        · intro msg hmsg n hkn hlt j'
          rcases Nat.eq_or_lt_of_le hkn with rfl | hlt'
          · simp [hp]
          · exact herr msg hmsg n (by omega) hlt j'
      · rw [hstep]
        rcases ih (k + 1) (some m1) hinv' with ⟨hok, herr⟩
        constructor
        · intro j hj
          rcases hok j hj with ⟨n, hn1, hn2, hn3, hn4⟩
          refine ⟨n, by omega, hn2, hn3, fun m' hm1 hm2 j' => ?_⟩
          rcases Nat.eq_or_lt_of_le hm1 with rfl | hlt
          · simp [hp]
          · exact hn4 m' (by omega) hm2 j'
        · intro msg hmsg n hkn hlt j'
          rcases Nat.eq_or_lt_of_le hkn with rfl | hlt'
          · simp [hp]
          · exact herr msg hmsg n (by omega) hlt j'
      · constructor
        · intro j hj
          have hjj : j = j := rfl
          refine ⟨k, le_refl k, ht, ?_, fun m' hm1 hm2 j' => by omega⟩
          have : (Except.ok j : Except String String) = .ok j := rfl
          simp only [Except.ok.injEq] at hj
          rw [hp, hj]
        · intro msg hmsg
          simp at hmsg
    · simp only [waitLoop]
      rw [if_neg ht]
      constructor
      · intro j hj
        simp at hj
      · intro msg _ n hkn hlt j'
        have := pollTime_mono env t0 hkn
        omega

/-- Claim C6: `wait_for_devtools` polls at a fixed interval of at least
250 ms (the sleep), swallows connection / parse errors; the loop is total by
construction for every finite timeout; it returns the JSON body of the first
HTTP-ok well-formed response probed before the deadline, and it produces the
`EndpointUnreachable` error exactly when no probe before the deadline
succeeded. -/
theorem wait_for_devtools_spec (env : DevEnv) (deadline t0 : Nat) :
    (∀ n, pollTime env t0 n + 250 ≤ pollTime env t0 (n + 1)) ∧
    (∀ j, wait_for_devtools env deadline t0 = .ok j →
      ∃ n, pollTime env t0 n < deadline ∧ env.poll (pollTime env t0 n) = .ok j ∧
        ∀ m, m < n → ∀ j', env.poll (pollTime env t0 m) ≠ .ok j') ∧
    (∀ msg, wait_for_devtools env deadline t0 = .error msg →
      (∃ l, msg = devtoolsFailMsg env l) ∧
      ∀ n, pollTime env t0 n < deadline → ∀ j, env.poll (pollTime env t0 n) ≠ .ok j) := by
  have hinv : deadline - pollTime env t0 0 ≤ 250 * ((deadline - t0) / 250 + 1) := by
    have h1 := Nat.div_add_mod (deadline - t0) 250
    have h2 : (deadline - t0) % 250 < 250 := Nat.mod_lt _ (by omega)
    show deadline - t0 ≤ _
    omega
  have hspec := waitLoop_spec env deadline t0 ((deadline - t0) / 250 + 1) 0 none hinv
  refine ⟨fun n => by rw [pollTime_succ]; omega, ?_, ?_⟩
  · intro j hj
    rcases hspec.1 j hj with ⟨n, _, hn2, hn3, hn4⟩
    exact ⟨n, hn2, hn3, fun m hm j' => hn4 m (Nat.zero_le m) hm j'⟩
  · intro msg hmsg
    refine ⟨waitLoop_error_shape env deadline _ _ _ _ hmsg, ?_⟩
    intro n hlt j
    exact hspec.2 msg hmsg n (Nat.zero_le n) hlt j

/-- A discovery endpoint that answers ok at the second probe. -/
def lateOkEnv : DevEnv where
  url := "http://127.0.0.1:9222/json/version"
  poll := fun t => if t = 250 then .ok "version-json" else .raise "refused"
  dur := fun _ => 0

/-- Claim C6, witness: on the concrete endpoint the returned body is the
first HTTP-ok probe before the deadline. -/
theorem wait_for_devtools_spec_witness :
    ∃ n, pollTime lateOkEnv 0 n < 600 ∧
      lateOkEnv.poll (pollTime lateOkEnv 0 n) = .ok "version-json" ∧
      ∀ m, m < n → ∀ j', lateOkEnv.poll (pollTime lateOkEnv 0 m) ≠ .ok j' :=
  (wait_for_devtools_spec lateOkEnv 600 0).2.1 "version-json" rfl

/-! ## Claim C5 -/

theorem launchEventsOf_append (a b : List LEvent) :
    launchEventsOf (a ++ b) = launchEventsOf a ++ launchEventsOf b :=
  List.filterMap_append a b _

/-- Step 1 performs no launch. -/
theorem launchEventsOf_step1 (cfg : BrowserConfig) (env : LaunchEnv) (ke : Bool) :
    launchEventsOf (launch_step1 cfg env ke) = [] := by
  unfold launch_step1
  repeat' split
  all_goals simp [launchEventsOf]

/-- Step 3 performs no launch and preserves prior events. -/
theorem launch_step3_events (env : LaunchEnv) (evs : List LEvent) :
    launchEventsOf (launch_step3 env evs).2 = launchEventsOf evs ∧
    ∀ e, e ∈ evs → e ∈ (launch_step3 env evs).2 := by
  unfold launch_step3
  rcases env.attach with m | dOpt
  · exact ⟨rfl, fun e he => he⟩
  · refine ⟨?_, fun e he => List.mem_append_left _ he⟩
    rw [launchEventsOf_append]
    simp [launchEventsOf]

/-- `launch_browser` on an existing executable, standard argument form. -/
theorem launch_browser_ok_std (cfg : BrowserConfig) (fs : String → Bool)
    (hfs : fs cfg.executablePath = true) :
    launch_browser cfg fs false = .ok (get_launch_args cfg) := by
  unfold launch_browser
  rw [if_neg (by simp [hfs])]
  rfl

/-- `launch_browser` on an existing executable, alternate `"--"` form. -/
theorem launch_browser_ok_alt (cfg : BrowserConfig) (fs : String → Bool)
    (hfs : fs cfg.executablePath = true) :
    launch_browser cfg fs true =
      .ok (cfg.executablePath :: "--" :: (get_launch_args cfg).drop 1) := by
  unfold launch_browser
  rw [if_neg (by simp [hfs])]
  rfl

/-- Claim C5: when the executable exists and the first attempt's endpoint
wait fails, `launch_and_attach` kills the launched process and retries the
launch exactly once — the run performs exactly two launches, the first with
the standard argument form and the second with the flags prefixed by the
literal `"--"` separator token — and if the second attempt's endpoint wait
also fails, that failure is surfaced to the caller as the result. -/
theorem launch_retry_alternate_once (cfg : BrowserConfig) (env : LaunchEnv) (ke : Bool)
    (m : String)
    (hfs : env.fs cfg.executablePath = true)
    (hw0 : wait_for_devtools (env.pollenv 0) cfg.timeoutMs 0 = .error m) :
    launchEventsOf (launch_and_attach cfg env ke).2 =
      [get_launch_args cfg,
        cfg.executablePath :: "--" :: (get_launch_args cfg).drop 1] ∧
    LEvent.killProcess ∈ (launch_and_attach cfg env ke).2 ∧
    (∀ msg, wait_for_devtools (env.pollenv 1) cfg.timeoutMs 0 = .error msg →
      (launch_and_attach cfg env ke).1 = .error (.runtime msg)) := by
  unfold launch_and_attach
  rw [launch_browser_ok_std cfg env.fs hfs, launch_browser_ok_alt cfg env.fs hfs]
  dsimp only
  rw [hw0]
  dsimp only
  rcases hw1 : wait_for_devtools (env.pollenv 1) cfg.timeoutMs 0 with msg1 | j1
  · dsimp only
    refine ⟨?_, ?_, ?_⟩
    · rw [launchEventsOf_append, launchEventsOf_append, launchEventsOf_append,
        launchEventsOf_step1]
      rfl
    · simp
    · intro msg hmsg
      simp only [Except.error.injEq] at hmsg
      rw [hmsg]
  · dsimp only
    have h3 := launch_step3_events env
      (launch_step1 cfg env ke ++ [LEvent.launch (get_launch_args cfg)] ++
        [LEvent.killProcess] ++
        [LEvent.launch (cfg.executablePath :: "--" :: (get_launch_args cfg).drop 1)])
    refine ⟨?_, ?_, ?_⟩
    · rw [h3.1, launchEventsOf_append, launchEventsOf_append, launchEventsOf_append,
        launchEventsOf_step1]
      rfl
    · exact h3.2 _ (by simp)
    · intro msg hmsg
      exact absurd hmsg (by simp)

/-- The endpoint environment that never answers. -/
def deadEndpoint : DevEnv where
  url := "http://127.0.0.1:9222/json/version"
  poll := fun _ => .raise "connection refused"
  dur := fun _ => 0

/-- Concrete configuration used by the launch witness. -/
def witnessCfg : BrowserConfig where
  executablePath := "C:/apps/comet.exe"
  userDataDir := some "./comet_profile_tmp"
  timeoutMs := 600

/-- Concrete launch environment: executable present, endpoint dead on both
attempts. -/
def witnessLaunchEnv : LaunchEnv where
  fs := fun _ => true
  ps := ⟨false, []⟩
  names := ["comet", "comet.exe", "perplexity"]
  profileExists := true
  pollenv := fun _ => deadEndpoint
  attach := .ok (some "driver")

/-- Claim C5, witness: both launch attempts happen in order (standard form,
then `"--"`-separated form) and the second wait's failure becomes the
result. -/
theorem launch_retry_alternate_once_witness :
    launchEventsOf (launch_and_attach witnessCfg witnessLaunchEnv true).2 =
      [get_launch_args witnessCfg,
        "C:/apps/comet.exe" :: "--" :: (get_launch_args witnessCfg).drop 1] ∧
    (launch_and_attach witnessCfg witnessLaunchEnv true).1 =
      .error (.runtime (devtoolsFailMsg deadEndpoint (some "connection refused"))) := by
  have h := launch_retry_alternate_once witnessCfg witnessLaunchEnv true
    (devtoolsFailMsg deadEndpoint (some "connection refused")) rfl rfl
  exact ⟨h.1, h.2.2 _ rfl⟩

/-! ### Claim C4 witness environment -/

/-- The one mismatch pair the source discards: detected major `140`, first
strategy produces a path embedding `141`; the manual download holds the
correct `140` driver. -/
def mismatch140Env : ChainEnv where
  cdaAvailable := true
  endpoint := .ok (some "Chrome/140.0.7339.80")
  installMajor := fun _ => .ok "chromedriver_141.0.1.2/chromedriver.exe"
  installDefault := .error "unused"
  download := some "chromedriver_140.0.7339.80/chromedriver.exe"
  wdm := .ok "wdm/chromedriver.exe"

/-- Claim C4, witness for the amended theorem: the `140`/`141` pair is
discarded in favour of the manual-download strategy, and the `120`/`121`
pair is accepted as-is. -/
theorem version_mismatch_only_140_141_witness :
    get_chromedriver_path mismatch140Env = manual_then_wdm mismatch140Env ∧
    get_chromedriver_path mismatch121Env =
      some "chromedriver_121.0.6167.85/chromedriver.exe" :=
  ⟨(version_mismatch_only_140_141 mismatch140Env "Chrome/140.0.7339.80" "140"
      "chromedriver_141.0.1.2/chromedriver.exe" rfl rfl (by decide) rfl
      (by decide)).1 ⟨by decide, rfl⟩,
    (version_mismatch_only_140_141 mismatch121Env "Chrome/120.0.6099.109" "120"
      "chromedriver_121.0.6167.85/chromedriver.exe" rfl rfl (by decide) rfl
      (by decide)).2 (by rintro ⟨_, h⟩; exact absurd h (by decide))⟩
